import Mathlib

/-
Verification development for the graph-patch / job-orchestration worker
(`handler.py`).  The Python module is shallowly embedded: JSON values become
an inductive `JVal`, Python dicts become ordered association lists
(`List (String × JVal)`, insertion order preserved, keys unique in practice),
raised exceptions become `Except.error` carrying the exception's `str`, and
wall-clock time in the polling loop is modelled discretely (one unit per
1-second sleep).  Environment variables are taken at their coded defaults
(no COMFY_HOST / INPUT_DIR / etc. overrides), matching the constants below.
-/

namespace Comfy

/-- JSON-like Python values as they occur in the handler: workflow documents,
request bodies, backend replies. -/
inductive JVal where
  | null : JVal
  | bool (b : Bool) : JVal
  | num (n : Int) : JVal
  | str (s : String) : JVal
  | arr (xs : List JVal) : JVal
  | obj (fields : List (String × JVal)) : JVal

mutual

/-- Structural (Python `==`) equality test on `JVal`. -/
def jvalBEq : JVal → JVal → Bool
  | .null, .null => true
  | .bool a, .bool b => a == b
  | .num a, .num b => a == b
  | .str a, .str b => a == b
  | .arr xs, .arr ys => jvalListBEq xs ys
  | .obj fs, .obj gs => jvalFieldsBEq fs gs
  | _, _ => false

/-- Elementwise equality test on JSON arrays. -/
def jvalListBEq : List JVal → List JVal → Bool
  | [], [] => true
  | x :: xs, y :: ys => jvalBEq x y && jvalListBEq xs ys
  | _, _ => false

/-- Pairwise equality test on JSON object field lists. -/
def jvalFieldsBEq : List (String × JVal) → List (String × JVal) → Bool
  | [], [] => true
  | (k, v) :: fs, (k', v') :: gs => k == k' && jvalBEq v v' && jvalFieldsBEq fs gs
  | _, _ => false

end

mutual

theorem jvalBEq_iff : ∀ a b : JVal, jvalBEq a b = true ↔ a = b
  | .null, .null => by simp [jvalBEq]
  | .bool a, .bool b => by simp [jvalBEq]
  | .num a, .num b => by simp [jvalBEq]
  | .str a, .str b => by simp [jvalBEq]
  | .arr xs, .arr ys => by
      simp only [jvalBEq, JVal.arr.injEq]
      exact jvalListBEq_iff xs ys
  | .obj fs, .obj gs => by
      simp only [jvalBEq, JVal.obj.injEq]
      exact jvalFieldsBEq_iff fs gs
  | .null, .bool _ | .null, .num _ | .null, .str _ | .null, .arr _ | .null, .obj _
  | .bool _, .null | .bool _, .num _ | .bool _, .str _ | .bool _, .arr _ | .bool _, .obj _
  | .num _, .null | .num _, .bool _ | .num _, .str _ | .num _, .arr _ | .num _, .obj _
  | .str _, .null | .str _, .bool _ | .str _, .num _ | .str _, .arr _ | .str _, .obj _
  | .arr _, .null | .arr _, .bool _ | .arr _, .num _ | .arr _, .str _ | .arr _, .obj _
  | .obj _, .null | .obj _, .bool _ | .obj _, .num _ | .obj _, .str _ | .obj _, .arr _ => by
      simp [jvalBEq]

theorem jvalListBEq_iff : ∀ xs ys : List JVal, jvalListBEq xs ys = true ↔ xs = ys
  | [], [] => by simp [jvalListBEq]
  | x :: xs, y :: ys => by
      simp only [jvalListBEq, Bool.and_eq_true, List.cons.injEq]
      exact and_congr (jvalBEq_iff x y) (jvalListBEq_iff xs ys)
  | [], _ :: _ => by simp [jvalListBEq]
  | _ :: _, [] => by simp [jvalListBEq]

theorem jvalFieldsBEq_iff :
    ∀ fs gs : List (String × JVal), jvalFieldsBEq fs gs = true ↔ fs = gs
  | [], [] => by simp [jvalFieldsBEq]
  | (k, v) :: fs, (k', v') :: gs => by
      simp only [jvalFieldsBEq, Bool.and_eq_true, List.cons.injEq, Prod.mk.injEq,
        beq_iff_eq, and_assoc]
      exact and_congr Iff.rfl (and_congr (jvalBEq_iff v v') (jvalFieldsBEq_iff fs gs))
  | [], _ :: _ => by simp [jvalFieldsBEq]
  | _ :: _, [] => by simp [jvalFieldsBEq]

end

instance : DecidableEq JVal := fun a b => decidable_of_iff _ (jvalBEq_iff a b)

/-- Python truthiness (`bool(v)`): `None`, `False`, `0`, `""`, `[]`, `{}` are
falsy, everything else truthy. -/
def jTruthy : JVal → Bool
  | .null => false
  | .bool b => b
  | .num n => n != 0
  | .str s => s != ""
  | .arr xs => !xs.isEmpty
  | .obj fs => !fs.isEmpty

/-- Ordered-dict key lookup (`k in d` / `d[k]` / `d.get(k)` on the unique-key
dicts the handler manipulates): the value of the first binding of `k`. -/
def jLookup (k : String) : List (String × JVal) → Option JVal
  | [] => none
  | (k₀, v₀) :: rest => if k₀ = k then some v₀ else jLookup k rest

@[simp] theorem jLookup_nil (k : String) : jLookup k [] = none := rfl

theorem jLookup_cons (k k₀ : String) (v₀ : JVal) (rest : List (String × JVal)) :
    jLookup k ((k₀, v₀) :: rest) = if k₀ = k then some v₀ else jLookup k rest := rfl

/-- Python dict assignment `d[k] = v` on an ordered dict: the value at an
existing key is replaced in place (position preserved); a new key is appended
at the end. -/
def objSet (fs : List (String × JVal)) (k : String) (v : JVal) : List (String × JVal) :=
  match fs with
  | [] => [(k, v)]
  | (k₀, v₀) :: rest => if k₀ = k then (k, v) :: rest else (k₀, v₀) :: objSet rest k v

@[simp] theorem objSet_nil (k : String) (v : JVal) : objSet [] k v = [(k, v)] := rfl

theorem objSet_cons (k₀ : String) (v₀ : JVal) (rest : List (String × JVal)) (k : String)
    (v : JVal) :
    objSet ((k₀, v₀) :: rest) k v =
      if k₀ = k then (k, v) :: rest else (k₀, v₀) :: objSet rest k v := rfl

/-- Updating a key that is present with its current value is the identity. -/
theorem objSet_jLookup_self (fs : List (String × JVal)) (k : String) (v : JVal)
    (h : jLookup k fs = some v) : objSet fs k v = fs := by
  induction fs with
  | nil => simp at h
  | cons hd tl ih =>
    obtain ⟨k₀, v₀⟩ := hd
    by_cases hk : k₀ = k
    · subst hk
      simp [jLookup_cons] at h
      simp [objSet, h]
    · rw [jLookup_cons, if_neg hk] at h
      simp [objSet, hk, ih h]

/-- `jLookup` after `objSet` at the written key yields the written value. -/
theorem objSet_jLookup_same (fs : List (String × JVal)) (k : String) (v : JVal) :
    jLookup k (objSet fs k v) = some v := by
  induction fs with
  | nil => simp [objSet, jLookup]
  | cons hd tl ih =>
    obtain ⟨k₀, v₀⟩ := hd
    by_cases hk : k₀ = k
    · simp [objSet, hk, jLookup]
    · simp [objSet, hk, jLookup_cons, ih]

/-- `jLookup` after `objSet` at a different key is unchanged. -/
theorem objSet_jLookup_ne (fs : List (String × JVal)) (k k₀ : String) (v : JVal)
    (h : k₀ ≠ k) : jLookup k₀ (objSet fs k v) = jLookup k₀ fs := by
  have hk' : ¬k = k₀ := fun hh => h hh.symm
  induction fs with
  | nil => simp [objSet, jLookup_cons, hk']
  | cons hd tl ih =>
    obtain ⟨k₁, v₁⟩ := hd
    by_cases hk : k₁ = k
    · subst hk
      simp [objSet, jLookup_cons, hk']
    · simp [objSet, hk, jLookup_cons, ih]

/-! ## String primitives

Python's `str.lower`, `in`, `startswith`, `endswith`, `split` are modelled
structurally over the character list of the string (the handler's inputs are
ASCII, where `Char.toLower` agrees with Python's lowercasing). -/

/-- Python `s.lower()`. -/
def pyLower (s : String) : String := String.mk (s.data.map Char.toLower)

/-- The first list starts with the second. -/
def charsStartWith : List Char → List Char → Bool
  | _, [] => true
  | [], _ :: _ => false
  | c :: cs, d :: ds => c = d && charsStartWith cs ds

/-- The second list occurs somewhere inside the first. -/
def charsContain : List Char → List Char → Bool
  | [], needle => needle.isEmpty
  | c :: rest, needle => charsStartWith (c :: rest) needle || charsContain rest needle

/-- Python `s.startswith(p)`. -/
def pyStartsWith (s p : String) : Bool := charsStartWith s.data p.data

/-- Python `s.endswith(p)`. -/
def pyEndsWith (s p : String) : Bool := charsStartWith s.data.reverse p.data.reverse

/-- Python `needle in haystack` on strings. -/
def strContainsSub (haystack needle : String) : Bool :=
  charsContain haystack.data needle.data

/-! ## Configuration constants (env-var defaults from the source) -/

def COMFY_URL : String := "http://127.0.0.1:8188"
def INPUT_DIR : String := "/workspace/inputs"
def OUTPUT_DIR : String := "/workspace/outputs"

/-! ## `_patch_workflow_images` (handler.py lines 123-138)

```
count = 0
for node_id, node in workflow.items():
    if isinstance(node, dict) and node.get("class_type", "").lower().startswith("loadimage"):
        if "inputs" in node and isinstance(node["inputs"], dict):
            if count == 0:
                node["inputs"]["image"] = source_name
            elif count == 1:
                node["inputs"]["image"] = target_name
            count += 1
return workflow
```

The function mutates `workflow` in place and returns the same object; in this
pure embedding `patchWorkflowImages` returns the post-state of the document,
which (because of the in-place mutation) is also the state of the caller's
input object after the call.  A node whose `class_type` is present but not a
string makes `.lower()` raise `AttributeError`; that is modelled as
`Except.error`. -/

/-- One iteration of the loop body of `_patch_workflow_images` for a single
node, threading the `count` variable. -/
def patchNode (node : JVal) (count : Nat) (sourceName targetName : String) :
    Except String (JVal × Nat) :=
  match node with
  | .obj fields =>
    match jLookup "class_type" fields with
    | some (.str ct) =>
      if pyStartsWith (pyLower ct) "loadimage" then
        match jLookup "inputs" fields with
        | some (.obj inputFields) =>
          let inputFields' :=
            if count = 0 then objSet inputFields "image" (.str sourceName)
            else if count = 1 then objSet inputFields "image" (.str targetName)
            else inputFields
          .ok (.obj (objSet fields "inputs" (.obj inputFields')), count + 1)
        | _ => .ok (node, count)
      else .ok (node, count)
    | some _ =>
      -- node.get("class_type", ...) returned a non-string; `.lower()` raises
      .error "AttributeError: object has no attribute lower"
    | none => .ok (node, count)
  | _ => .ok (node, count)

/-- The `for node_id, node in workflow.items()` loop of
`_patch_workflow_images`, over the remaining items. -/
def patchLoop (items : List (String × JVal)) (count : Nat) (sourceName targetName : String) :
    Except String (List (String × JVal)) :=
  match items with
  | [] => .ok []
  | (nid, node) :: rest =>
    match patchNode node count sourceName targetName with
    | .error e => .error e
    | .ok (node', count') =>
      match patchLoop rest count' sourceName targetName with
      | .error e => .error e
      | .ok rest' => .ok ((nid, node') :: rest')

/-- `_patch_workflow_images(workflow, source_name, target_name)`. -/
def patchWorkflowImages (workflow : List (String × JVal)) (sourceName targetName : String) :
    Except String (List (String × JVal)) :=
  patchLoop workflow 0 sourceName targetName

/-- A node qualifies as an asset slot for the patch loop: it is a dict whose
`class_type` is a string that lowercased starts with `"loadimage"`, and whose
`"inputs"` entry is a dict.  (Derived observable of the loop's guard
conditions.) -/
def nodeQualifies (node : JVal) : Bool :=
  match node with
  | .obj fields =>
    (match jLookup "class_type" fields with
     | some (.str ct) => pyStartsWith (pyLower ct) "loadimage"
     | _ => false) &&
    (match jLookup "inputs" fields with
     | some (.obj _) => true
     | _ => false)
  | _ => false

/-- A node makes the patch loop raise: it is a dict whose `class_type` entry
is present but not a string (`.lower()` raises `AttributeError`). -/
def nodeRaises (node : JVal) : Bool :=
  match node with
  | .obj fields =>
    (match jLookup "class_type" fields with
     | some (.str _) => false
     | some _ => true
     | none => false)
  | _ => false

/-- Number of qualifying (discoverable) asset slots of a document. -/
def countSlots (workflow : List (String × JVal)) : Nat :=
  (workflow.filter (fun p => nodeQualifies p.2)).length

/-- The value a patch writes into a qualifying node: `node["inputs"]["image"] = v`. -/
def setImage (node : JVal) (v : String) : JVal :=
  match node with
  | .obj fields =>
    match jLookup "inputs" fields with
    | some (.obj inputFields) =>
      .obj (objSet fields "inputs" (.obj (objSet inputFields "image" (.str v))))
    | _ => node
  | _ => node

/-- The current `inputs.image` value of a node, when it exists. -/
def getImageVal (node : JVal) : Option JVal :=
  match node with
  | .obj fields =>
    match jLookup "inputs" fields with
    | some (.obj inputFields) => jLookup "image" inputFields
    | _ => none
  | _ => none

/-- Characterization of a qualifying (discoverable-slot) node. -/
theorem nodeQualifies_iff (node : JVal) :
    nodeQualifies node = true ↔
      ∃ fields ct infs,
        node = .obj fields ∧
        jLookup "class_type" fields = some (.str ct) ∧
        pyStartsWith (pyLower ct) "loadimage" = true ∧
        jLookup "inputs" fields = some (.obj infs) := by
  constructor
  · intro h
    cases node with
    | obj fields =>
      rw [nodeQualifies, Bool.and_eq_true] at h
      obtain ⟨ha, hb⟩ := h
      split at ha
      case h_1 ct heq =>
        split at hb
        case h_1 infs heq2 => exact ⟨fields, ct, infs, rfl, heq, ha, heq2⟩
        case h_2 => simp at hb
      case h_2 => simp at ha
    | null => simp [nodeQualifies] at h
    | bool b => simp [nodeQualifies] at h
    | num n => simp [nodeQualifies] at h
    | str s => simp [nodeQualifies] at h
    | arr xs => simp [nodeQualifies] at h
  · rintro ⟨fields, ct, infs, rfl, h1, hct, h2⟩
    simp [nodeQualifies, h1, hct, h2]

/-- A qualifying node never makes the loop raise. -/
theorem nodeQualifies_not_raises (node : JVal) (h : nodeQualifies node = true) :
    nodeRaises node = false := by
  obtain ⟨fields, ct, infs, rfl, h1, hct, h2⟩ := (nodeQualifies_iff node).mp h
  simp [nodeRaises, h1]

/-- A node that neither raises nor qualifies passes through the loop body
untouched, with the slot counter unchanged. -/
theorem patchNode_skip (node : JVal) (c : Nat) (s t : String)
    (hr : nodeRaises node = false) (hq : nodeQualifies node = false) :
    patchNode node c s t = .ok (node, c) := by
  cases node with
  | obj fields =>
    rcases h1 : jLookup "class_type" fields with - | v
    · simp [patchNode, h1]
    · cases v with
      | str ct =>
        by_cases hct : pyStartsWith (pyLower ct) "loadimage" = true
        · rcases h2 : jLookup "inputs" fields with - | w
          · simp [patchNode, h1, hct, h2]
          · cases w with
            | obj infs => simp [nodeQualifies, h1, hct, h2] at hq
            | null => simp [patchNode, h1, hct, h2]
            | bool b => simp [patchNode, h1, hct, h2]
            | num n => simp [patchNode, h1, hct, h2]
            | str s2 => simp [patchNode, h1, hct, h2]
            | arr xs => simp [patchNode, h1, hct, h2]
        · simp [patchNode, h1, Bool.not_eq_true _ ▸ hct]
      | null => simp [nodeRaises, h1] at hr
      | bool b => simp [nodeRaises, h1] at hr
      | num n => simp [nodeRaises, h1] at hr
      | arr xs => simp [nodeRaises, h1] at hr
      | obj fs2 => simp [nodeRaises, h1] at hr
  | null => rfl
  | bool b => rfl
  | num n => rfl
  | str s2 => rfl
  | arr xs => rfl

/-- Loop body on the first qualifying node (counter 0): `inputs.image` is set
to the source name. -/
theorem patchNode_qual0 (node : JVal) (s t : String) (hq : nodeQualifies node = true) :
    patchNode node 0 s t = .ok (setImage node s, 1) := by
  obtain ⟨fields, ct, infs, rfl, h1, hct, h2⟩ := (nodeQualifies_iff node).mp hq
  simp [patchNode, setImage, h1, hct, h2]

/-- Loop body on the second qualifying node (counter 1): `inputs.image` is set
to the target name. -/
theorem patchNode_qual1 (node : JVal) (s t : String) (hq : nodeQualifies node = true) :
    patchNode node 1 s t = .ok (setImage node t, 2) := by
  obtain ⟨fields, ct, infs, rfl, h1, hct, h2⟩ := (nodeQualifies_iff node).mp hq
  simp [patchNode, setImage, h1, hct, h2]

/-- Loop body on a qualifying node once two slots are already bound: the node
is written back unchanged (the `inputs` dict is re-stored as-is) and only the
counter advances. -/
theorem patchNode_qual_ge2 (node : JVal) (c : Nat) (s t : String)
    (hq : nodeQualifies node = true) (hc : 2 ≤ c) :
    patchNode node c s t = .ok (node, c + 1) := by
  obtain ⟨fields, ct, infs, rfl, h1, hct, h2⟩ := (nodeQualifies_iff node).mp hq
  have hc0 : ¬c = 0 := by omega
  have hc1 : ¬c = 1 := by omega
  simp only [patchNode, h1, hct, if_true, h2, hc0, if_false, hc1]
  rw [objSet_jLookup_self fields "inputs" _ h2]

/-- The loop body never raises on a non-raising node. -/
theorem patchNode_ok (node : JVal) (c : Nat) (s t : String)
    (hr : nodeRaises node = false) :
    ∃ node' c', patchNode node c s t = .ok (node', c') := by
  by_cases hq : nodeQualifies node = true
  · obtain ⟨fields, ct, infs, rfl, h1, hct, h2⟩ := (nodeQualifies_iff node).mp hq
    refine ⟨.obj (objSet fields "inputs" (.obj
      (if c = 0 then objSet infs "image" (.str s)
       else if c = 1 then objSet infs "image" (.str t) else infs))), c + 1, ?_⟩
    simp [patchNode, h1, hct, h2]
  · exact ⟨node, c, patchNode_skip node c s t hr (by simpa using hq)⟩

/-- A run of nodes that neither raise nor qualify passes through the loop
unchanged, in front of whatever the rest of the loop produces. -/
theorem patchLoop_skips_front (pre rest : List (String × JVal)) (c : Nat) (s t : String)
    (hpre : ∀ p ∈ pre, nodeRaises p.2 = false ∧ nodeQualifies p.2 = false) :
    patchLoop (pre ++ rest) c s t = (patchLoop rest c s t).map (fun out => pre ++ out) := by
  induction pre with
  | nil =>
    cases h : patchLoop rest c s t <;> simp [h, Except.map]
  | cons hd tl ih =>
    obtain ⟨k, n⟩ := hd
    have hh := hpre (k, n) (by simp)
    have htl : ∀ p ∈ tl, nodeRaises p.2 = false ∧ nodeQualifies p.2 = false :=
      fun p hp => hpre p (by simp [hp])
    rw [List.cons_append, patchLoop, patchNode_skip n c s t hh.1 hh.2]
    dsimp only
    rw [ih htl]
    cases h : patchLoop rest c s t <;> simp [Except.map]

/-- Once two slots are bound (counter at least 2), the rest of the loop leaves
every remaining non-raising node unchanged. -/
theorem patchLoop_stable (items : List (String × JVal)) (c : Nat) (s t : String)
    (hc : 2 ≤ c) (hitems : ∀ p ∈ items, nodeRaises p.2 = false) :
    patchLoop items c s t = .ok items := by
  induction items generalizing c with
  | nil => rfl
  | cons hd tl ih =>
    obtain ⟨k, n⟩ := hd
    have hn : nodeRaises n = false := hitems (k, n) (by simp)
    have htl : ∀ p ∈ tl, nodeRaises p.2 = false := fun p hp => hitems p (by simp [hp])
    by_cases hq : nodeQualifies n = true
    · rw [patchLoop, patchNode_qual_ge2 n c s t hq hc]
      dsimp only
      rw [ih (c + 1) (by omega) htl]
    · rw [patchLoop, patchNode_skip n c s t hn (by simpa using hq)]
      dsimp only
      rw [ih c hc htl]

/-- The whole loop never raises on a document with no raising node. -/
theorem patchLoop_ok (items : List (String × JVal)) (c : Nat) (s t : String)
    (hitems : ∀ p ∈ items, nodeRaises p.2 = false) :
    ∃ out, patchLoop items c s t = .ok out ∧ out.length = items.length := by
  induction items generalizing c with
  | nil => exact ⟨[], rfl, rfl⟩
  | cons hd tl ih =>
    obtain ⟨k, n⟩ := hd
    have hn : nodeRaises n = false := hitems (k, n) (by simp)
    have htl : ∀ p ∈ tl, nodeRaises p.2 = false := fun p hp => hitems p (by simp [hp])
    obtain ⟨n', c', hstep⟩ := patchNode_ok n c s t hn
    obtain ⟨out, hout, hlen⟩ := ih c' htl
    refine ⟨(k, n') :: out, ?_, by simp [hlen]⟩
    rw [patchLoop, hstep]
    dsimp only
    rw [hout]

/-- The patched value of a qualifying node reads back the injected reference
at `inputs.image`, and the node still qualifies on a re-scan. -/
theorem setImage_spec (node : JVal) (v : String) (hq : nodeQualifies node = true) :
    getImageVal (setImage node v) = some (.str v) ∧
      nodeQualifies (setImage node v) = true := by
  obtain ⟨fields, ct, infs, rfl, h1, hct, h2⟩ := (nodeQualifies_iff node).mp hq
  have hne : ("class_type" : String) ≠ "inputs" := by decide
  constructor
  · simp [setImage, getImageVal, h1, h2, objSet_jLookup_same]
  · simp [nodeQualifies, setImage, h1, h2, hct, objSet_jLookup_same,
      objSet_jLookup_ne _ _ _ _ hne]

/-! ## SlotLocator as the spec describes it (for refinement comparison)

The code's discovery rule above (`nodeQualifies`) is compared against the
spec's rule.  The following definitions are modelled from the spec (§4.1):
scan nodes in document order; a node qualifies if (a) its kind matches the
image-loading family case-insensitively (names containing both "load" and
"image"), OR (b) it has a parameter literally named with an image-like key
(`image`, `filename`, `path`, `file`, `input_image`) whose value is a string;
the qualifying parameter name is the node's first image-like string parameter
(for a purely kind-matched node the spec leaves the parameter implicit; the
image-loading family's slot parameter is `image`). -/

/-- Modelled from the spec: the image-like parameter keys. -/
def specImageKeys : List String := ["image", "filename", "path", "file", "input_image"]

/-- Modelled from the spec: case-insensitive image-loading family match. -/
def specKindMatches (kind : String) : Bool :=
  strContainsSub (pyLower kind) "load" && strContainsSub (pyLower kind) "image"

/-- Modelled from the spec: a node's first image-like string-valued parameter. -/
def specParamSlot (params : List (String × JVal)) : Option String :=
  (params.find? (fun kv =>
    specImageKeys.contains kv.1 &&
    (match kv.2 with | .str _ => true | _ => false))).map Prod.fst

/-- Modelled from the spec: the slot (parameter name) a node contributes, if
it qualifies. -/
def specNodeSlot (node : JVal) : Option String :=
  match node with
  | .obj fields =>
    let kindOk := match jLookup "class_type" fields with
      | some (.str ct) => specKindMatches ct
      | _ => false
    let params := match jLookup "inputs" fields with
      | some (.obj ps) => ps
      | _ => []
    match specParamSlot params with
    | some p => some p
    | none => if kindOk then some "image" else none
  | _ => none

/-- Modelled from the spec: `FindAssetSlots(doc)`, the ordered list of
`(nodeId, parameterName)` pairs in document iteration order. -/
def specFindAssetSlots (doc : List (String × JVal)) : List (String × String) :=
  doc.foldr
    (fun p acc =>
      match specNodeSlot p.2 with
      | some param => (p.1, param) :: acc
      | none => acc) []

/-! ## Response helpers `_resp_ok` / `_resp_err` (handler.py lines 65-72) -/

/-- A single-quote character, for building the handler's quoted messages. -/
def sq : String := (Char.ofNat 39).toString

/-- `_resp_ok(payload)` = `{"ok": True, **payload}` (payloads in this module
never carry an `"ok"` key themselves). -/
def respOk (payload : List (String × JVal)) : JVal :=
  .obj (("ok", .bool true) :: payload)

/-- `_resp_err(msg)` with no extra payload. -/
def respErr (msg : String) : JVal :=
  .obj [("ok", .bool false), ("error", .str msg)]

/-- `_resp_err(msg, {"trace": traceback.format_exc()})`; the traceback text is
opaque to the model. -/
def respErrT (msg : String) : JVal :=
  .obj [("ok", .bool false), ("error", .str msg), ("trace", .str "<traceback>")]

/-! ## HTTP responses and `_queue_prompt` (handler.py lines 140-144) -/

/-- An HTTP response as `requests` exposes it to the handler: status code,
reason phrase, raw body text, and the result of `r.json()` (which raises on a
non-JSON body).  The submit path never reads `body`; it is carried to state
that the backend's rejection detail is discarded. -/
structure HttpResp where
  status : Nat
  reason : String
  body : String
  json : Except String JVal

/-- `requests.Response.raise_for_status()`: raises `HTTPError` with a message
built from the status code, reason and URL (the response body is not part of
the message). -/
def raiseForStatus (url : String) (r : HttpResp) : Except String Unit :=
  if 400 ≤ r.status ∧ r.status < 500 then
    .error (toString r.status ++ " Client Error: " ++ r.reason ++ " for url: " ++ url)
  else if 500 ≤ r.status ∧ r.status < 600 then
    .error (toString r.status ++ " Server Error: " ++ r.reason ++ " for url: " ++ url)
  else .ok ()

/-- `_queue_prompt(workflow)` given the backend's response to
`POST {COMFY_URL}/prompt`: raise for a non-success status, then return
`r.json().get("prompt_id")` (Python `None`, i.e. `JVal.null`, when the reply
carries no job identifier). -/
def queuePrompt (r : HttpResp) : Except String JVal :=
  match raiseForStatus (COMFY_URL ++ "/prompt") r with
  | .error e => .error e
  | .ok _ =>
    match r.json with
    | .error e => .error e
    | .ok (.obj fields) => .ok ((jLookup "prompt_id" fields).getD .null)
    | .ok _ => .error "AttributeError: object has no attribute get"

/-! ## `_wait_prompt_done` (handler.py lines 146-159)

Discrete-time model: the loop `while time.time() < deadline` with a 1-second
`time.sleep` per iteration runs exactly `timeout` iterations for an integer
`timeout`, the query itself being treated as instantaneous; iteration `t`
observes the backend's response `resps t`.  `Except.error` models a raised
exception (the `requests` call raising after its adapter retries, a JSON
parse error, or the final `raise TimeoutError(...)`). -/

/-- One polling observation: either the HTTP GET itself raised, or it
returned a response. -/
inductive PollResp where
  | exn (msg : String)
  | resp (r : HttpResp)

instance : BEq JVal := ⟨jvalBEq⟩

/-- Python membership test `pid in js` on a parsed JSON value. -/
def jsMember (pid : JVal) (js : JVal) : Except String Bool :=
  match js with
  | .obj fs =>
    match pid with
    | .arr _ => .error ("unhashable type: " ++ sq ++ "list" ++ sq)
    | .obj _ => .error ("unhashable type: " ++ sq ++ "dict" ++ sq)
    | .str s => .ok (jLookup s fs).isSome
    | _ => .ok false
  | .arr xs => .ok (xs.contains pid)
  | .str s =>
    match pid with
    | .str sub => .ok (sub = "" || strContainsSub s sub)
    | _ => .error "TypeError: in string requires string as left operand"
  | _ => .error "TypeError: argument is not iterable"

/-- Python subscript `js[pid]` on a parsed JSON value. -/
def jsIndex (js : JVal) (pid : JVal) : Except String JVal :=
  match js with
  | .obj fs =>
    match pid with
    | .str s =>
      match jLookup s fs with
      | some v => .ok v
      | none => .error "KeyError"
    | .arr _ => .error ("unhashable type: " ++ sq ++ "list" ++ sq)
    | .obj _ => .error ("unhashable type: " ++ sq ++ "dict" ++ sq)
    | _ => .error "KeyError"
  | .arr xs =>
    match pid with
    | .num n =>
      let i : Int := if n < 0 then n + xs.length else n
      if h : 0 ≤ i ∧ i.toNat < xs.length then .ok (xs.get ⟨i.toNat, h.2⟩)
      else .error "IndexError: list index out of range"
    | _ => .error "TypeError: list indices must be integers or slices"
  | _ => .error "TypeError: object is not subscriptable"

/-- Python `v.get(k, dflt)`: dict lookup with default; any non-dict receiver
raises `AttributeError`. -/
def dictGet (v : JVal) (k : String) (dflt : JVal) : Except String JVal :=
  match v with
  | .obj fs => .ok ((jLookup k fs).getD dflt)
  | _ => .error "AttributeError: object has no attribute get"

/-- One iteration of the `_wait_prompt_done` loop body: `.ok none` means keep
polling, `.ok (some hist)` means the job completed with history entry `hist`,
`.error` models a raised exception. -/
def pollStep (promptId : JVal) (pr : PollResp) : Except String (Option JVal) :=
  match pr with
  | .exn m => .error m
  | .resp r =>
    if r.status < 400 then
      match r.json with
      | .error e => .error e
      | .ok js =>
        match jsMember promptId js with
        | .error e => .error e
        | .ok false => .ok none
        | .ok true =>
          match jsIndex js promptId with
          | .error e => .error e
          | .ok entry =>
            match dictGet entry "status" (.obj []) with
            | .error e => .error e
            | .ok status =>
              match dictGet status "completed" .null with
              | .error e => .error e
              | .ok comp => if jTruthy comp then .ok (some entry) else .ok none
    else .ok none

/-- The polling loop with `fuel` remaining 1-second iterations, currently at
discrete time `t`. -/
def waitLoop (promptId : JVal) (resps : Nat → PollResp) (t : Nat) (fuel : Nat) :
    Except String JVal :=
  match fuel with
  | 0 => .error "ComfyUI prompt did not complete in time"
  | fuel' + 1 =>
    match pollStep promptId (resps t) with
    | .error e => .error e
    | .ok (some hist) => .ok hist
    | .ok none => waitLoop promptId resps (t + 1) fuel'

/-- `_wait_prompt_done(prompt_id, timeout)`. -/
def waitPromptDone (promptId : JVal) (resps : Nat → PollResp) (timeout : Nat) :
    Except String JVal :=
  waitLoop promptId resps 0 timeout

/-! ## `_collect_images_from_history` (handler.py lines 161-184) -/

/-- The result-entry dict built for one image descriptor:
`{"filename": ..., "subfolder": ..., "type": ...}` plus `"image_base64"` when
the descriptor carries `"data"`. -/
def mkEntry (img : List (String × JVal)) : JVal :=
  let base := [("filename", (jLookup "filename" img).getD .null),
               ("subfolder", (jLookup "subfolder" img).getD .null),
               ("type", (jLookup "type" img).getD .null)]
  match jLookup "data" img with
  | some d => .obj (base ++ [("image_base64", d)])
  | none => .obj base

/-- The inner `for img in node_out.get("images", [])` loop. -/
def collectImgs : List JVal → Except String (List JVal)
  | [] => .ok []
  | img :: rest =>
    match img with
    | .obj fs =>
      match collectImgs rest with
      | .error e => .error e
      | .ok rest' => .ok (mkEntry fs :: rest')
    | _ => .error "AttributeError: object has no attribute get"

/-- The outer `for node_id, node_out in hist.get("outputs", {}).items()` loop. -/
def collectOuter : List (String × JVal) → Except String (List JVal)
  | [] => .ok []
  | (_, nodeOut) :: rest =>
    match dictGet nodeOut "images" (.arr []) with
    | .error e => .error e
    | .ok (.arr imgs) =>
      match collectImgs imgs with
      | .error e => .error e
      | .ok here =>
        match collectOuter rest with
        | .error e => .error e
        | .ok there => .ok (here ++ there)
    | .ok _ => .error "TypeError: images value is not iterable"

/-- `_collect_images_from_history(hist)`. -/
def collectImages (hist : JVal) : Except String (List JVal) :=
  if jTruthy hist = false then .ok []
  else
    match dictGet hist "outputs" (.obj []) with
    | .error e => .error e
    | .ok (.obj nodeOuts) => collectOuter nodeOuts
    | .ok _ => .error "AttributeError: object has no attribute items"

/-! ## `_download_image_to` (handler.py lines 91-115) -/

/-- `os.path.basename` for the forward-slash paths this module builds. -/
def pyBasename (path : String) : String :=
  String.mk (path.data.foldl (fun acc c => if c = '/' then [] else acc ++ [c]) [])

/-- `posixpath.join` for two components. -/
def pathJoin (a b : String) : String :=
  if pyStartsWith b "/" then b
  else if a = "" || pyEndsWith a "/" then a ++ b
  else a ++ "/" ++ b

/-- Python `s.split(",", 1)` when a comma is present: the part before the
first comma and the remainder. -/
def splitCharsAtComma : List Char → Option (List Char × List Char)
  | [] => none
  | c :: rest =>
    if c = ',' then some ([], rest)
    else (splitCharsAtComma rest).map (fun p => (c :: p.1, p.2))

/-- Python `s.split(",", 1)` when a comma is present: the part before the
first comma and the remainder. -/
def splitFirstComma (s : String) : Option (String × String) :=
  (splitCharsAtComma s.data).map (fun p => (String.mk p.1, String.mk p.2))

/-- `_download_image_to(path, url_or_b64)`.  The two external effects are
supplied as collaborators: `decodeOk payload` models
`base64.b64decode(payload)` followed by the file write (raising on bad
base64), `fetchOk ref` models `HTTP.get(ref)` + `raise_for_status()` + the
file write (raising on network or HTTP errors, or a non-string argument).
Returns the basename on success. -/
def downloadImageTo (decodeOk : String → Except String Unit)
    (fetchOk : JVal → Except String Unit) (path : String) (v : JVal) :
    Except String String :=
  match v with
  | .str s =>
    if pyStartsWith s "data:" || s.length > 1000 then
      match
        (if pyStartsWith s "data:" then
          match splitFirstComma s with
          | some (_, b64data) => Except.ok b64data
          | none => Except.error "ValueError: not enough values to unpack"
        else Except.ok s) with
      | .error e => .error e
      | .ok payload =>
        match decodeOk payload with
        | .error e => .error e
        | .ok _ => .ok (pyBasename path)
    else
      match fetchOk v with
      | .error e => .error e
      | .ok _ => .ok (pyBasename path)
  | other =>
    match fetchOk other with
    | .error e => .error e
    | .ok _ => .ok (pyBasename path)

/-! ## `op_faceswap` (handler.py lines 239-326)

The operation's external collaborators are collected into an environment
record: the ComfyUI readiness probe, the two download effects, the workflow
file, the backend's reply to `POST /prompt`, the per-poll replies of
`GET /history/{prompt_id}`, the output directory contents, the S3
configuration/uploader, base64 encoding of file bytes, and the current date
string.  `jobId` is the `str(uuid.uuid4())[:8]` prefix.  The returned value
pairs the operation's outcome (`Except.error` = exception propagating to
`handler`) with the list of backend-facing calls it issued, in order. -/

/-- Environment of one `op_faceswap` invocation. -/
structure Env where
  comfy : Except String JVal
  decodeOk : String → Except String Unit
  fetchOk : JVal → Except String Unit
  loadWorkflow : Except String (List (String × JVal))
  jobId : String
  queueResp : HttpResp
  historyResps : Nat → PollResp
  disk : String → Option String
  useS3 : Bool
  s3Upload : String → String → Except String String
  b64encode : String → String
  today : String

/-- Backend-facing calls issued by `op_faceswap`, in order. -/
inductive Call where
  | waitForComfy : Call
  | download (ref : JVal) : Call
  | submit (workflow : List (String × JVal)) : Call
  | pollHistory (promptId : JVal) : Call
  | s3 (path key : String) : Call
deriving DecidableEq

/-- `True` when the trace contains a graph submission (`POST /prompt`). -/
def calledSubmit (calls : List Call) : Bool :=
  calls.any fun c => match c with | .submit _ => true | _ => false

/-- Error message of line 254 (missing inputs). -/
def msgProvide : String :=
  "Provide " ++ sq ++ "source_url" ++ sq ++ "/" ++ sq ++ "source_b64" ++ sq ++
    " and " ++ sq ++ "target_url" ++ sq ++ "/" ++ sq ++ "target_b64" ++ sq ++ "."

/-- Error message of line 258 (bad `return` preference). -/
def msgInvalidReturn : String :=
  "Invalid " ++ sq ++ "return" ++ sq ++ " value. Use " ++ sq ++ "url" ++ sq ++
    " or " ++ sq ++ "b64" ++ sq ++ "."

/-- Lines 289-326: build the final response from the FIRST collected image
entry only (`first = images[0]`). -/
def opFaceswapResult (env : Env) (first : JVal) (retPref : String) (calls : List Call) :
    Except String JVal × List Call :=
  match dictGet first "filename" .null with
  | .error e => (.error e, calls)
  | .ok filename =>
    match dictGet first "subfolder" (.str "") with
    | .error e => (.error e, calls)
    | .ok subfolder =>
      let diskPathE : Except String (Option String) :=
        if jTruthy filename then
          match subfolder, filename with
          | .str sf, .str fn => .ok (some (pathJoin (pathJoin OUTPUT_DIR sf) fn))
          | _, _ => .error "TypeError: join argument must be str"
        else .ok none
      match diskPathE with
      | .error e => (.error e, calls)
      | .ok diskPath =>
        if retPref = "url" && env.useS3 then
          match diskPath with
          | none => (.ok (respErr "Output file not found on disk to upload."), calls)
          | some p =>
            match env.disk p with
            | none => (.ok (respErr "Output file not found on disk to upload."), calls)
            | some bytes =>
              let fn := match filename with | .str f => f | _ => ""
              let key := "faceswap/" ++ env.today ++ "/" ++ env.jobId ++ "_" ++ fn
              match env.s3Upload p key with
              | .ok url =>
                (.ok (respOk [("result_url", .str url),
                  ("file", .obj [("name", filename), ("subfolder", subfolder)])]),
                 calls ++ [.s3 p key])
              | .error e =>
                (.ok (respOk [("result_b64", .str (env.b64encode bytes)),
                  ("note", .str ("S3 upload failed: " ++ e))]),
                 calls ++ [.s3 p key])
        else
          match diskPath with
          | some p =>
            match env.disk p with
            | some bytes => (.ok (respOk [("result_b64", .str (env.b64encode bytes))]), calls)
            | none =>
              match dictGet first "image_base64" .null with
              | .error e => (.error e, calls)
              | .ok b64v =>
                if jTruthy b64v then (.ok (respOk [("result_b64", b64v)]), calls)
                else (.ok (respErr "Output image bytes unavailable."), calls)
          | none =>
            match dictGet first "image_base64" .null with
            | .error e => (.error e, calls)
            | .ok b64v =>
              if jTruthy b64v then (.ok (respOk [("result_b64", b64v)]), calls)
              else (.ok (respErr "Output image bytes unavailable."), calls)

/-- Lines 279-287 (the queue/wait/collect `try` block) followed by the result
construction. -/
def opFaceswapQueue (env : Env) (wfP : List (String × JVal)) (retPref : String)
    (calls : List Call) : Except String JVal × List Call :=
  let calls := calls ++ [Call.submit wfP]
  match queuePrompt env.queueResp with
  | .error e => (.ok (respErrT ("Pipeline failed: " ++ e)), calls)
  | .ok promptId =>
    let calls := calls ++ [Call.pollHistory promptId]
    match waitPromptDone promptId env.historyResps 900 with
    | .error e => (.ok (respErrT ("Pipeline failed: " ++ e)), calls)
    | .ok hist =>
      match collectImages hist with
      | .error e => (.ok (respErrT ("Pipeline failed: " ++ e)), calls)
      | .ok [] => (.ok (respErr "No images produced by workflow."), calls)
      | .ok (first :: _) => opFaceswapResult env first retPref calls

/-- Lines 250-277: input extraction, return-preference validation, the two
input downloads and the workflow build, on an already-dict `data`. -/
def opFaceswapBody (env : Env) (data : List (String × JVal)) (calls : List Call) :
    Except String JVal × List Call :=
  let source := if jTruthy ((jLookup "source_url" data).getD .null)
                then (jLookup "source_url" data).getD .null
                else (jLookup "source_b64" data).getD .null
  let target := if jTruthy ((jLookup "target_url" data).getD .null)
                then (jLookup "target_url" data).getD .null
                else (jLookup "target_b64" data).getD .null
  if jTruthy source = false || jTruthy target = false then
    (.ok (respErr msgProvide), calls)
  else
    let retv := (jLookup "return" data).getD .null
    -- ret_pref in ("url", "b64", None): tuple membership by equality
    let retValid : Bool := match retv with
      | .str s => s = "url" || s = "b64"
      | .null => true
      | _ => false
    if retValid = false then
      (.ok (respErr msgInvalidReturn), calls)
    else
      let retPref : String :=
        match retv with
        | .str s => s
        | _ => (if env.useS3 then "url" else "b64")
      let srcName := "source_" ++ env.jobId ++ ".png"
      let tgtName := "target_" ++ env.jobId ++ ".png"
      match downloadImageTo env.decodeOk env.fetchOk (INPUT_DIR ++ "/" ++ srcName) source with
      | .error e =>
        (.ok (respErr ("Failed to fetch inputs: " ++ e)), calls ++ [.download source])
      | .ok _ =>
        match downloadImageTo env.decodeOk env.fetchOk (INPUT_DIR ++ "/" ++ tgtName) target with
        | .error e =>
          (.ok (respErr ("Failed to fetch inputs: " ++ e)),
           calls ++ [.download source, .download target])
        | .ok _ =>
          let calls := calls ++ [Call.download source, Call.download target]
          match env.loadWorkflow with
          | .error e => (.ok (respErr ("Workflow error: " ++ e)), calls)
          | .ok wf =>
            match patchWorkflowImages wf srcName tgtName with
            | .error e => (.ok (respErr ("Workflow error: " ++ e)), calls)
            | .ok wfP => opFaceswapQueue env wfP retPref calls

/-- `op_faceswap(event)`: readiness probe, then the body on `event or {}`
(a truthy non-dict event makes `data.get` raise `AttributeError`). -/
def opFaceswap (env : Env) (event : JVal) : Except String JVal × List Call :=
  match env.comfy with
  | .error e => (.error e, [Call.waitForComfy])
  | .ok _ =>
    match (if jTruthy event then event else .obj []) with
    | .obj data => opFaceswapBody env data [Call.waitForComfy]
    | _ => (.error "AttributeError: object has no attribute get", [Call.waitForComfy])

/-! ## The dispatcher `handler` (handler.py lines 331-352) -/

/-- The registered operations (keys of the `OPS` dict). -/
inductive OpKey where
  | ping : OpKey
  | healthCheck : OpKey
  | version : OpKey
  | faceswap : OpKey
deriving DecidableEq

/-- `OPS` viewed as a map from key strings. -/
def opsLookup (s : String) : Option OpKey :=
  if s = "ping" then some .ping
  else if s = "health_check" then some .healthCheck
  else if s = "version" then some .version
  else if s = "faceswap" then some .faceswap
  else none

/-- Python `str(v)` for the scalar values that can reach the unknown-op
message (arrays/objects raise on the preceding `OPS.get` and never reach it). -/
def pyStr : JVal → String
  | .null => "None"
  | .bool b => if b then "True" else "False"
  | .num n => toString n
  | .str s => s
  | .arr _ => ""
  | .obj _ => ""

/-- `OPS.get(op)`: unhashable keys (lists/dicts) raise `TypeError`; hashable
non-keys return `None`. -/
def opsGet (op : JVal) : Except String (Option OpKey) :=
  match op with
  | .arr _ => .error ("unhashable type: " ++ sq ++ "list" ++ sq)
  | .obj _ => .error ("unhashable type: " ++ sq ++ "dict" ++ sq)
  | .str s => .ok (opsLookup s)
  | _ => .ok none

/-- Message of line 345. -/
def msgMissingOp : String := "Missing " ++ sq ++ "op" ++ sq ++ "."

/-- Message of line 348, `f"Unknown op '{op}'"`. -/
def msgUnknownOp (op : String) : String := "Unknown op " ++ sq ++ op ++ sq

/-- Line 340: `body = event.get("input") if isinstance(event, dict) else None`. -/
def bodyVal (event : JVal) : JVal :=
  match event with
  | .obj fs => (jLookup "input" fs).getD .null
  | _ => .null

/-- `handler(event)`.  `impl` supplies the behavior of the four registered
operations (each may raise, modelled by `Except.error`); the surrounding
`try/except Exception` turns any raise into the catch-all error response. -/
def handler (impl : OpKey → JVal → Except String JVal) (event : JVal) : JVal :=
  let result : Except String JVal :=
    match bodyVal event with
    | .obj bodyFs =>
      let op := (jLookup "op" bodyFs).getD .null
      if jTruthy op = false then .ok (respErr msgMissingOp)
      else
        match opsGet op with
        | .error e => .error e
        | .ok none => .ok (respErr (msgUnknownOp (pyStr op)))
        | .ok (some key) =>
          let payload := JVal.obj (bodyFs.filter (fun kv => kv.1 ≠ "op"))
          impl key payload
    | _ => .ok (respErr "Invalid request body.")
  match result with
  | .ok r => r
  | .error e => respErrT ("Unhandled error: " ++ e)

/-- The response has a boolean `"ok"` field. -/
def hasOkBool (v : JVal) : Bool :=
  match v with
  | .obj fs => match jLookup "ok" fs with
    | some (.bool _) => true
    | _ => false
  | _ => false

/-! ## Structured histories, for stating properties of the collector -/

/-- A backend artifact descriptor as it appears in a history's
`outputs.<node>.images` array: `filename` / `subfolder` / `type` fields plus
an optional inline `data` payload. -/
structure ImgDesc where
  filename : JVal
  subfolder : JVal
  type : JVal
  dataB64 : Option JVal
deriving DecidableEq

/-- The JSON object of one artifact descriptor. -/
def imgToJson (d : ImgDesc) : JVal :=
  .obj ([("filename", d.filename), ("subfolder", d.subfolder), ("type", d.type)] ++
    (match d.dataB64 with
     | some v => [("data", v)]
     | none => []))

/-- The collector's result entry for one artifact descriptor. -/
def entryOf (d : ImgDesc) : JVal :=
  .obj ([("filename", d.filename), ("subfolder", d.subfolder), ("type", d.type)] ++
    (match d.dataB64 with
     | some v => [("image_base64", v)]
     | none => []))

/-- A completed-job history entry whose `outputs` carry the given per-node
artifact descriptor lists. -/
def mkHist (outs : List (String × List ImgDesc)) : JVal :=
  .obj [("status", .obj [("completed", .bool true)]),
        ("outputs", .obj (outs.map fun p =>
          (p.1, .obj [("images", .arr (p.2.map imgToJson))])))]

/-- All entries of a structured history, in backend order, duplicates kept. -/
def flatEntries (outs : List (String × List ImgDesc)) : List JVal :=
  outs.foldr (fun p acc => p.2.map entryOf ++ acc) []

theorem mkEntry_imgToJson (d : ImgDesc) :
    mkEntry ([("filename", d.filename), ("subfolder", d.subfolder), ("type", d.type)] ++
      (match d.dataB64 with
       | some v => [("data", v)]
       | none => [])) = entryOf d := by
  cases h : d.dataB64 with
  | none => simp [mkEntry, entryOf, jLookup, h]
  | some v => simp [mkEntry, entryOf, jLookup, h]

theorem collectImgs_map (l : List ImgDesc) :
    collectImgs (l.map imgToJson) = .ok (l.map entryOf) := by
  induction l with
  | nil => rfl
  | cons d rest ih =>
    simp only [List.map_cons, collectImgs, imgToJson, ih]
    rw [mkEntry_imgToJson]

theorem collectOuter_map (outs : List (String × List ImgDesc)) :
    collectOuter (outs.map fun p => (p.1, .obj [("images", .arr (p.2.map imgToJson))])) =
      .ok (flatEntries outs) := by
  induction outs with
  | nil => rfl
  | cons p rest ih =>
    obtain ⟨nid, imgs⟩ := p
    rw [List.map_cons, collectOuter]
    have hd : dictGet (JVal.obj [("images", JVal.arr (List.map imgToJson (nid, imgs).2))])
        "images" (JVal.arr []) = .ok (.arr (List.map imgToJson imgs)) := rfl
    rw [hd]
    dsimp only
    rw [collectImgs_map imgs]
    dsimp only
    rw [ih]
    rfl

/-- Collecting from a structured history yields all its entries, in order,
with duplicates kept. -/
theorem collectImages_mkHist (outs : List (String × List ImgDesc)) :
    collectImages (mkHist outs) = .ok (flatEntries outs) := by
  rw [show collectImages (mkHist outs) =
    collectOuter (outs.map fun p => (p.1, .obj [("images", .arr (p.2.map imgToJson))]))
    from rfl]
  exact collectOuter_map outs

/-! ## Polling-loop lemmas -/

/-- If every observation up to the deadline is non-terminal (a non-success
status, a reply not naming the job, or a job without a truthy
`status.completed`), the loop exhausts its whole time budget and raises
`TimeoutError` — no retry counter is involved. -/
theorem waitLoop_all_none (promptId : JVal) (resps : Nat → PollResp) (fuel t : Nat)
    (h : ∀ i, i < fuel → pollStep promptId (resps (t + i)) = .ok none) :
    waitLoop promptId resps t fuel = .error "ComfyUI prompt did not complete in time" := by
  induction fuel generalizing t with
  | zero => rfl
  | succ f ih =>
    rw [waitLoop]
    have h0 : pollStep promptId (resps t) = .ok none := by
      have := h 0 (by omega)
      simpa using this
    rw [h0]
    exact ih (t + 1) fun i hi => by
      have := h (i + 1) (by omega)
      rwa [show t + (i + 1) = t + 1 + i by omega] at this

/-- If the first terminal observation happens strictly inside the time
budget, the loop returns its history entry. -/
theorem waitLoop_finds (promptId : JVal) (resps : Nat → PollResp) (fuel t k : Nat)
    (hist : JVal) (hk : k < fuel)
    (hbefore : ∀ i, i < k → pollStep promptId (resps (t + i)) = .ok none)
    (hit : pollStep promptId (resps (t + k)) = .ok (some hist)) :
    waitLoop promptId resps t fuel = .ok hist := by
  induction fuel generalizing t k with
  | zero => omega
  | succ f ih =>
    rw [waitLoop]
    cases k with
    | zero =>
      rw [show t + 0 = t by omega] at hit
      rw [hit]
    | succ j =>
      have h0 : pollStep promptId (resps t) = .ok none := by
        have := hbefore 0 (by omega)
        simpa using this
      rw [h0]
      refine ih (t + 1) j (by omega) ?_ ?_
      · intro i hi
        have := hbefore (i + 1) (by omega)
        rwa [show t + (i + 1) = t + 1 + i by omega] at this
      · rwa [show t + (j + 1) = t + 1 + j by omega] at hit

/-! ## Concrete fixtures -/

/-- A faceswap request payload with two short HTTP input references. -/
def evHttp : JVal :=
  .obj [("source_url", .str "http://e.com/s.png"), ("target_url", .str "http://e.com/t.png")]

/-- A one-node workflow with no image-loading node: zero discoverable slots. -/
def wfZero : List (String × JVal) :=
  [("3", .obj [("class_type", .str "KSampler"), ("inputs", .obj [])])]

/-- A history whose single artifact has a falsy filename and inline data. -/
def histInline : JVal :=
  mkHist [("9", [⟨.str "", .str "", .str "output", some (.str "IMGDATA")⟩])]

/-- Healthy backend, fetches succeed, zero-slot workflow, job `p1` completes
immediately with one inline artifact; no S3, empty output directory. -/
def envZero : Env :=
  ⟨.ok (.obj []), fun _ => .ok (), fun _ => .ok (), .ok wfZero, "abcd1234",
   ⟨200, "OK", "", .ok (.obj [("prompt_id", .str "p1")])⟩,
   fun _ => .resp ⟨200, "OK", "", .ok (.obj [("p1", histInline)])⟩,
   fun _ => none, false, fun _ _ => .error "no s3", fun b => b, "20261012"⟩

/-- A `LoadImage` node with the given current `inputs.image` value. -/
def nodeLI (img : String) : JVal :=
  .obj [("class_type", .str "LoadImage"), ("inputs", .obj [("image", .str img)])]

/-! ## C1 -/

/-- C1: the claim says that with fewer than two discoverable slots the patch
step fails with `InsufficientSlots` and Submit is never called.  The code has
no such check: `_patch_workflow_images` returns normally whatever the slot
count (amended), and on a zero-slot document `op_faceswap` still submits the
graph and can even complete successfully. -/
theorem c1_patch_ignores_slot_count :
    (∀ (wf : List (String × JVal)) (s t : String),
      (∀ p ∈ wf, nodeRaises p.2 = false) →
      (patchWorkflowImages wf s t).isOk = true) ∧
    (countSlots wfZero = 0 ∧
     calledSubmit (opFaceswap envZero evHttp).2 = true ∧
     (opFaceswap envZero evHttp).1 = .ok (respOk [("result_b64", .str "IMGDATA")])) := by
  constructor
  · intro wf s t h
    obtain ⟨out, hout, -⟩ := patchLoop_ok wf 0 s t h
    rw [patchWorkflowImages, hout]
    rfl
  · exact ⟨rfl, rfl, rfl⟩

/-- C1 witness: the general part of the theorem applied to a concrete
zero-slot document. -/
theorem c1_witness :
    (patchWorkflowImages
      [("7", .obj [("class_type", .str "VAEDecode"), ("inputs", .obj [])])]
      "s.png" "t.png").isOk = true :=
  c1_patch_ignores_slot_count.1
    [("7", .obj [("class_type", .str "VAEDecode"), ("inputs", .obj [])])]
    "s.png" "t.png"
    (by intro p hp; rw [List.mem_singleton] at hp; subst hp; rfl)

/-- C1 counterexample: a document with zero discoverable slots is patched
without any error, the graph is submitted anyway (the trace contains the
`POST /prompt` call), and the whole run returns a success response — there is
no `InsufficientSlots` failure and Submit is reached. -/
theorem c1_counterexample :
    countSlots wfZero = 0 ∧
    patchWorkflowImages wfZero "source_abcd1234.png" "target_abcd1234.png" = .ok wfZero ∧
    calledSubmit (opFaceswap envZero evHttp).2 = true ∧
    (opFaceswap envZero evHttp).1 = .ok (respOk [("result_b64", .str "IMGDATA")]) :=
  ⟨rfl, rfl, rfl, rfl⟩

/-! ## C2 -/

/-- C2: a two-node document on which the spec's discovery rule and the code's
disagree: node `1` has kind `"Image Loader"` (matches the spec's
load+image family and has an image-like string parameter) but its kind does
not start with `"loadimage"`, so the code skips it. -/
def wfMixed : List (String × JVal) :=
  [("1", .obj [("class_type", .str "Image Loader"), ("inputs", .obj [("image", .str "a.png")])]),
   ("2", .obj [("class_type", .str "LoadImage"), ("inputs", .obj [("image", .str "b.png")])])]

/-- What the code actually produces on `wfMixed`: only node `2` is patched,
and it receives the FIRST (source) reference. -/
def wfMixedCode : List (String × JVal) :=
  [("1", .obj [("class_type", .str "Image Loader"), ("inputs", .obj [("image", .str "a.png")])]),
   ("2", .obj [("class_type", .str "LoadImage"), ("inputs", .obj [("image", .str "SRC")])])]

/-- What the claim's discovery rule predicts on `wfMixed`: node `1` bound to
the first reference, node `2` to the second. -/
def wfMixedSpec : List (String × JVal) :=
  [("1", .obj [("class_type", .str "Image Loader"), ("inputs", .obj [("image", .str "SRC")])]),
   ("2", .obj [("class_type", .str "LoadImage"), ("inputs", .obj [("image", .str "TGT")])])]

/-- C2 counterexample: the spec-side locator discovers two slots on `wfMixed`
(first slot at node `1`), but the code's patch step leaves node `1` untouched
and binds node `2` to the source reference — the claimed discovery rule
(kind-family match OR image-like parameter) is not the code's rule
(`class_type.lower().startswith("loadimage")` only). -/
theorem c2_counterexample :
    specFindAssetSlots wfMixed = [("1", "image"), ("2", "image")] ∧
    patchWorkflowImages wfMixed "SRC" "TGT" = .ok wfMixedCode ∧
    wfMixedCode ≠ wfMixedSpec :=
  ⟨rfl, rfl, by simp [wfMixedCode, wfMixedSpec]⟩

/-- C2 (amended): discovery scans nodes in document order, but a node
qualifies only if its `class_type` is a string lowercasing to a
`"loadimage"`-prefixed name AND it has a dict-valued `inputs`; the first such
node's `inputs.image` is set to the first (source) reference and the second
to the second (target) reference, every other node is unchanged, and
re-scanning the patched document shows the two reference values exactly in
those two slot positions (which still qualify). -/
theorem c2_discovery_order_binding
    (pre mid post : List (String × JVal)) (id1 id2 : String) (n1 n2 : JVal) (s t : String)
    (hpre : ∀ p ∈ pre, nodeRaises p.2 = false ∧ nodeQualifies p.2 = false)
    (hmid : ∀ p ∈ mid, nodeRaises p.2 = false ∧ nodeQualifies p.2 = false)
    (hq1 : nodeQualifies n1 = true) (hq2 : nodeQualifies n2 = true)
    (hpost : ∀ p ∈ post, nodeRaises p.2 = false) :
    patchWorkflowImages (pre ++ ((id1, n1) :: (mid ++ ((id2, n2) :: post)))) s t =
      .ok (pre ++ ((id1, setImage n1 s) :: (mid ++ ((id2, setImage n2 t) :: post)))) ∧
    getImageVal (setImage n1 s) = some (.str s) ∧
    getImageVal (setImage n2 t) = some (.str t) ∧
    nodeQualifies (setImage n1 s) = true ∧
    nodeQualifies (setImage n2 t) = true := by
  refine ⟨?_, (setImage_spec n1 s hq1).1, (setImage_spec n2 t hq2).1,
    (setImage_spec n1 s hq1).2, (setImage_spec n2 t hq2).2⟩
  rw [patchWorkflowImages,
    patchLoop_skips_front pre ((id1, n1) :: (mid ++ (id2, n2) :: post)) 0 s t hpre]
  rw [patchLoop, patchNode_qual0 n1 s t hq1]
  dsimp only
  rw [patchLoop_skips_front mid ((id2, n2) :: post) 1 s t hmid]
  rw [patchLoop, patchNode_qual1 n2 s t hq2]
  dsimp only
  rw [patchLoop_stable post 2 s t (by omega) hpost]
  rfl

/-- C2 witness: the amended binding law on a concrete two-slot document. -/
theorem c2_witness :
    patchWorkflowImages [("n1", nodeLI "x.png"), ("n2", nodeLI "y.png")] "src.png" "tgt.png" =
      .ok [("n1", nodeLI "src.png"), ("n2", nodeLI "tgt.png")] ∧
    getImageVal (nodeLI "src.png") = some (.str "src.png") ∧
    getImageVal (nodeLI "tgt.png") = some (.str "tgt.png") ∧
    nodeQualifies (nodeLI "src.png") = true ∧
    nodeQualifies (nodeLI "tgt.png") = true :=
  c2_discovery_order_binding [] [] [] "n1" "n2" (nodeLI "x.png") (nodeLI "y.png")
    "src.png" "tgt.png" (by simp) (by simp) (by decide) (by decide) (by simp)

/-! ## C3 -/

/-- C3: the claim says patching operates on a deep copy and the input
template is byte-for-byte unchanged.  `_patch_workflow_images` performs no
copy of any kind: it assigns into the caller's node dicts in place and
returns the same object, so in this embedding (where `patchWorkflowImages`
returns the post-state of the input object) the document after a successful
patch differs from the template whenever a discoverable slot's current value
differs from the injected reference (amended). -/
theorem c3_patch_mutates_input
    (pre post : List (String × JVal)) (id1 : String) (n1 : JVal) (s t : String)
    (hpre : ∀ p ∈ pre, nodeRaises p.2 = false ∧ nodeQualifies p.2 = false)
    (hq1 : nodeQualifies n1 = true)
    (hdiff : getImageVal n1 ≠ some (.str s)) :
    patchWorkflowImages (pre ++ (id1, n1) :: post) s t ≠ .ok (pre ++ (id1, n1) :: post) := by
  intro hEq
  rw [patchWorkflowImages, patchLoop_skips_front pre ((id1, n1) :: post) 0 s t hpre] at hEq
  rw [patchLoop, patchNode_qual0 n1 s t hq1] at hEq
  dsimp only at hEq
  cases hrest : patchLoop post 1 s t with
  | error e => rw [hrest] at hEq; simp [Except.map] at hEq
  | ok out =>
    rw [hrest] at hEq
    simp only [Except.map, Except.ok.injEq] at hEq
    have htail := List.append_cancel_left hEq
    have hnode : setImage n1 s = n1 :=
      congrArg (fun l => (l.headD ("", JVal.null)).2) htail
    apply hdiff
    rw [← hnode]
    exact (setImage_spec n1 s hq1).1

/-- C3 witness: the amended mutation law on a concrete one-slot document. -/
theorem c3_witness :
    patchWorkflowImages [("1", nodeLI "old.png")] "new.png" "tgt.png" ≠
      .ok [("1", nodeLI "old.png")] :=
  c3_patch_mutates_input [] [] "1" (nodeLI "old.png") "new.png" "tgt.png"
    (by simp) (by decide)
    (fun h => by
      rw [show getImageVal (nodeLI "old.png") = some (.str "old.png") from rfl] at h
      simp at h)

/-- C3 counterexample: patching a one-slot template rewrites its slot in
place — the post-state of the input document is not byte-for-byte equal to
the template. -/
theorem c3_counterexample :
    patchWorkflowImages [("1", nodeLI "old.png")] "new.png" "tgt.png" =
      .ok [("1", nodeLI "new.png")] ∧
    [("1", nodeLI "new.png")] ≠ [("1", nodeLI "old.png")] :=
  ⟨rfl, by simp [nodeLI]⟩

/-! ## C4 -/

/-- A polling stream of permanent 404s (job never becomes visible) whose
bodies are not even JSON. -/
def resps404 : Nat → PollResp :=
  fun _ => .resp ⟨404, "Not Found", "", .error "ValueError: no JSON"⟩

/-- A polling stream that reports the job complete from the first query. -/
def respsDone : Nat → PollResp :=
  fun _ => .resp ⟨200, "OK", "", .ok (.obj [("p9", mkHist [("5", [])])])⟩

/-- C4 (amended): `_wait_prompt_done` is gated purely by its time budget
(modelled discretely, one unit per 1-second poll): if every observation up to
`timeout` is non-terminal — any mix of non-success statuses such as 404,
replies not yet naming the job, and entries without a truthy
`status.completed` — the loop runs its full budget and then raises
`TimeoutError("ComfyUI prompt did not complete in time")` (it does not return
a TimedOut status value), and if the first terminal observation arrives at
poll `k < timeout` the history entry is returned; no retry counter exists.
(A transport-level exception from the HTTP client, by contrast, propagates
immediately — see the counterexample.) -/
theorem c4_timeout_time_gated (promptId : JVal) (resps : Nat → PollResp) (timeout : Nat) :
    ((∀ i, i < timeout → pollStep promptId (resps i) = .ok none) →
      waitPromptDone promptId resps timeout =
        .error "ComfyUI prompt did not complete in time") ∧
    (∀ k hist, k < timeout →
      (∀ i, i < k → pollStep promptId (resps i) = .ok none) →
      pollStep promptId (resps k) = .ok (some hist) →
      waitPromptDone promptId resps timeout = .ok hist) := by
  constructor
  · intro h
    exact waitLoop_all_none promptId resps timeout 0 (fun i hi => by simpa using h i hi)
  · intro k hist hk hb hit
    exact waitLoop_finds promptId resps timeout 0 k hist hk
      (fun i hi => by simpa using hb i hi) (by simpa using hit)

/-- C4 witness: both halves of the theorem at concrete five-iteration runs:
a stream of 404s exhausts the budget and raises the timeout, and a stream
that completes at the first poll returns the history entry. -/
theorem c4_witness :
    waitPromptDone (.str "p9") resps404 5 =
      .error "ComfyUI prompt did not complete in time" ∧
    waitPromptDone (.str "p9") respsDone 5 = .ok (mkHist [("5", [])]) :=
  ⟨(c4_timeout_time_gated (.str "p9") resps404 5).1 (fun i _ => rfl),
   (c4_timeout_time_gated (.str "p9") respsDone 5).2 0 (mkHist [("5", [])])
     (by omega) (fun i hi => absurd hi (by omega)) rfl⟩

/-- C4 counterexample: on timeout the function RAISES `TimeoutError` (the
`Except.error` of the model) instead of returning a TimedOut status as
claimed; and a transport-level query exception at the first poll aborts the
wait immediately instead of being tolerated as transient. -/
theorem c4_counterexample :
    waitPromptDone (.str "p1") resps404 5 =
      .error "ComfyUI prompt did not complete in time" ∧
    waitPromptDone (.str "p1") (fun _ => .exn "Connection refused") 5 =
      .error "Connection refused" :=
  ⟨rfl, rfl⟩

/-! ## C5 -/

/-- An environment whose job completes with an empty `outputs` map. -/
def envEmptyOut : Env :=
  ⟨.ok (.obj []), fun _ => .ok (), fun _ => .ok (), .ok wfZero, "abcd1234",
   ⟨200, "OK", "", .ok (.obj [("prompt_id", .str "p1")])⟩,
   fun _ => .resp ⟨200, "OK", "", .ok (.obj [("p1", mkHist [])])⟩,
   fun _ => none, false, fun _ _ => .error "no s3", fun b => b, "20261012"⟩

/-- C5 (amended): `_collect_images_from_history` extracts every artifact
descriptor across all output-producing nodes in backend-reported order, but
WITHOUT de-duplicating: byte-identical descriptors are all kept (one result
entry per descriptor occurrence).  A completed job with zero descriptors
makes `op_faceswap` fail with the error response
`"No images produced by workflow."`. -/
theorem c5_collect_order_no_dedup :
    (∀ outs : List (String × List ImgDesc),
      collectImages (mkHist outs) = .ok (flatEntries outs)) ∧
    (opFaceswap envEmptyOut evHttp).1 = .ok (respErr "No images produced by workflow.") :=
  ⟨collectImages_mkHist, rfl⟩

/-- A duplicated artifact descriptor. -/
def imgDup : ImgDesc := ⟨.str "out.png", .str "", .str "output", none⟩

/-- C5 counterexample: a completed job reporting the same byte-identical
descriptor twice yields BOTH occurrences — the claimed de-duplication on
`(name, subgroup, kind)` does not happen. -/
theorem c5_counterexample :
    collectImages (mkHist [("9", [imgDup, imgDup])]) =
      .ok [entryOf imgDup, entryOf imgDup] ∧
    entryOf imgDup =
      .obj [("filename", .str "out.png"), ("subfolder", .str ""), ("type", .str "output")] :=
  ⟨rfl, rfl⟩

/-! ## C6 -/

/-- C6 (amended): a non-success submit response makes `_queue_prompt` raise
an `HTTPError` whose message is built from the status code, reason phrase and
URL only — the backend's response body (its raw rejection detail) is
discarded: the outcome is invariant under changing the body, and for any
4xx status the error is exactly the `"<code> Client Error: <reason> for url:
<url>"` string. -/
theorem c6_rejection_detail_discarded (status : Nat) (reason body1 body2 : String)
    (js : Except String JVal) :
    queuePrompt ⟨status, reason, body1, js⟩ = queuePrompt ⟨status, reason, body2, js⟩ ∧
    (400 ≤ status → status < 500 →
      queuePrompt ⟨status, reason, body1, js⟩ =
        .error (toString status ++ " Client Error: " ++ reason ++ " for url: " ++
          "http://127.0.0.1:8188/prompt")) := by
  constructor
  · rfl
  · intro h1 h2
    rw [queuePrompt, raiseForStatus, if_pos ⟨h1, h2⟩]
    rfl

/-- C6 witness: the theorem at the end-to-end scenario's input, an HTTP 422
whose body is `"node n1 missing required input"`. -/
theorem c6_witness :
    queuePrompt ⟨422, "Unprocessable Entity", "node n1 missing required input",
        .ok (.obj [("error", .str "node n1 missing required input")])⟩ =
      queuePrompt ⟨422, "Unprocessable Entity", "",
        .ok (.obj [("error", .str "node n1 missing required input")])⟩ ∧
    queuePrompt ⟨422, "Unprocessable Entity", "node n1 missing required input",
        .ok (.obj [("error", .str "node n1 missing required input")])⟩ =
      .error (toString 422 ++ " Client Error: " ++ "Unprocessable Entity" ++ " for url: " ++
        "http://127.0.0.1:8188/prompt") :=
  ⟨(c6_rejection_detail_discarded 422 "Unprocessable Entity"
      "node n1 missing required input" ""
      (.ok (.obj [("error", .str "node n1 missing required input")]))).1,
   (c6_rejection_detail_discarded 422 "Unprocessable Entity"
      "node n1 missing required input" ""
      (.ok (.obj [("error", .str "node n1 missing required input")]))).2
      (by omega) (by omega)⟩

/-- The end-to-end scenario's backend response: HTTP 422 with body
`"node n1 missing required input"`. -/
def resp422 : HttpResp :=
  ⟨422, "Unprocessable Entity", "node n1 missing required input",
   .ok (.obj [("error", .str "node n1 missing required input")])⟩

/-- Environment whose submit endpoint rejects with `resp422`. -/
def env422 : Env :=
  ⟨.ok (.obj []), fun _ => .ok (), fun _ => .ok (), .ok wfZero, "abcd1234",
   resp422,
   fun _ => .resp ⟨200, "OK", "", .ok (.obj [])⟩,
   fun _ => none, false, fun _ _ => .error "no s3", fun b => b, "20261012"⟩

/-- C6 counterexample: on an HTTP 422 with body
`"node n1 missing required input"` the run fails with
`"Pipeline failed: 422 Client Error: Unprocessable Entity for url: ..."` —
the caller-visible error never contains the backend's raw rejection detail
(the body string does not occur in the message), contradicting the claimed
verbatim `BackendRejected` detail. -/
theorem c6_counterexample :
    queuePrompt resp422 =
      .error "422 Client Error: Unprocessable Entity for url: http://127.0.0.1:8188/prompt" ∧
    strContainsSub
      "422 Client Error: Unprocessable Entity for url: http://127.0.0.1:8188/prompt"
      "node n1 missing required input" = false ∧
    (opFaceswap env422 evHttp).1 =
      .ok (respErrT
        "Pipeline failed: 422 Client Error: Unprocessable Entity for url: http://127.0.0.1:8188/prompt") :=
  ⟨rfl, rfl, rfl⟩

/-! ## C7 -/

/-- A poll observation that can never raise: either a non-success status or a
JSON-object body. -/
def benignPoll (pr : PollResp) : Prop :=
  match pr with
  | .exn _ => False
  | .resp r => r.status < 400 → ∃ fs, r.json = .ok (.obj fs)

/-- C7 (amended): a success reply to `POST /prompt` with no `prompt_id` key
does NOT fail with any MalformedResponse-style error: `_queue_prompt` returns
Python `None`, and `op_faceswap` hands that `None` to the polling step, where
`прompt_id in js` can never hold (history keys are strings), so the run ends
in the timeout error after the full 900-second budget. -/
theorem c7_missing_job_id_polls_none (status : Nat) (reason body : String)
    (fields : List (String × JVal)) :
    (status < 400 → jLookup "prompt_id" fields = none →
      queuePrompt ⟨status, reason, body, .ok (.obj fields)⟩ = .ok .null) ∧
    (∀ resps : Nat → PollResp, (∀ i, benignPoll (resps i)) →
      waitPromptDone .null resps 900 =
        .error "ComfyUI prompt did not complete in time") := by
  constructor
  · intro hst hpid
    unfold queuePrompt raiseForStatus
    dsimp only
    rw [if_neg (by omega), if_neg (by omega)]
    simp [hpid]
  · intro resps h
    apply waitLoop_all_none .null resps 900 0
    intro i _
    rw [Nat.zero_add]
    have hi := h i
    cases hr : resps i with
    | exn m => rw [hr] at hi; exact absurd hi id
    | resp r =>
      rw [hr] at hi
      by_cases hst : r.status < 400
      · obtain ⟨fs, hjs⟩ := hi hst
        simp [pollStep, hst, hjs, jsMember]
      · simp [pollStep, hst]

/-- C7 witness: the theorem at a concrete success reply with an empty JSON
body and a constant benign history stream. -/
theorem c7_witness :
    queuePrompt ⟨200, "OK", "{}", .ok (.obj [])⟩ = .ok .null ∧
    waitPromptDone .null (fun _ => .resp ⟨200, "OK", "{}", .ok (.obj [])⟩) 900 =
      .error "ComfyUI prompt did not complete in time" :=
  ⟨(c7_missing_job_id_polls_none 200 "OK" "{}" []).1 (by omega) rfl,
   (c7_missing_job_id_polls_none 200 "OK" "{}" []).2
     (fun _ => .resp ⟨200, "OK", "{}", .ok (.obj [])⟩)
     (fun _ _ => ⟨[], rfl⟩)⟩

/-- Environment whose submit reply is a success with no job identifier, and
whose history endpoint always answers with an empty JSON object. -/
def envNoPid : Env :=
  ⟨.ok (.obj []), fun _ => .ok (), fun _ => .ok (), .ok wfZero, "abcd1234",
   ⟨200, "OK", "{}", .ok (.obj [])⟩,
   fun _ => .resp ⟨200, "OK", "{}", .ok (.obj [])⟩,
   fun _ => none, false, fun _ _ => .error "no s3", fun b => b, "20261012"⟩

set_option maxRecDepth 200000 in
/-- C7 counterexample: with a success submit reply carrying no job
identifier, `op_faceswap` does not fail with MalformedResponse — its call
trace shows the polling step entered with handle `None`, and the run ends in
the generic timeout-derived pipeline error 900 polls later. -/
theorem c7_counterexample :
    (opFaceswap envNoPid evHttp).1 =
      .ok (respErrT "Pipeline failed: ComfyUI prompt did not complete in time") ∧
    (opFaceswap envNoPid evHttp).2 =
      [.waitForComfy, .download (.str "http://e.com/s.png"),
       .download (.str "http://e.com/t.png"), .submit wfZero, .pollHistory .null] :=
  ⟨rfl, rfl⟩

/-! ## C8 -/

/-- An artifact descriptor with inline base64 payload `b`. -/
def imgOut (b : String) : ImgDesc := ⟨.str "out.png", .str "", .str "output", some (.str b)⟩

/-- A second, different artifact descriptor with its own payload. -/
def imgOut2 : ImgDesc := ⟨.str "out_2.png", .str "", .str "output", some (.str "SECONDB64")⟩

/-- A two-slot workflow template. -/
def wfTwoLI : List (String × JVal) := [("n1", nodeLI "x.png"), ("n2", nodeLI "y.png")]

/-- `wfTwoLI` after patching with job id `abcd1234`. -/
def wfTwoLIP : List (String × JVal) :=
  [("n1", nodeLI "source_abcd1234.png"), ("n2", nodeLI "target_abcd1234.png")]

/-- The download/probe call sequence before submission. -/
def callsDl : List Call :=
  [.waitForComfy, .download (.str "http://e.com/s.png"), .download (.str "http://e.com/t.png")]

/-- Environment whose completed job reports the artifact `imgOut "FIRSTB64"`
followed by arbitrarily many further artifacts `rest`; no S3, empty disk. -/
def envC8 (rest : List ImgDesc) : Env :=
  ⟨.ok (.obj []), fun _ => .ok (), fun _ => .ok (), .ok wfTwoLI, "abcd1234",
   ⟨200, "OK", "", .ok (.obj [("prompt_id", .str "p1")])⟩,
   fun _ => .resp ⟨200, "OK", "",
     .ok (.obj [("p1", mkHist [("9", imgOut "FIRSTB64" :: rest)])])⟩,
   fun _ => none, false, fun _ _ => .error "no s3", fun x => x, "20261012"⟩

/-- C8 (amended): on a successful run `op_faceswap` uses `images[0]` only and
returns a single output image, not the list of all artifacts: for every tail
`rest` of further artifacts reported by the completed job, the response is
the same single `result_b64` built from the first artifact — the remaining
artifacts are discarded. -/
theorem c8_first_artifact_only (rest : List ImgDesc) :
    opFaceswap (envC8 rest) evHttp =
      (.ok (respOk [("result_b64", .str "FIRSTB64")]),
       callsDl ++ [.submit wfTwoLIP, .pollHistory (.str "p1")]) := by
  have h1 : opFaceswap (envC8 rest) evHttp =
      opFaceswapQueue (envC8 rest) wfTwoLIP "b64" callsDl := rfl
  rw [h1, opFaceswapQueue]
  dsimp only
  rw [show queuePrompt (envC8 rest).queueResp = .ok (.str "p1") from rfl]
  dsimp only
  rw [show waitPromptDone (.str "p1") (envC8 rest).historyResps 900 =
    .ok (mkHist [("9", imgOut "FIRSTB64" :: rest)]) from rfl]
  dsimp only
  rw [collectImages_mkHist]
  rw [show flatEntries [("9", imgOut "FIRSTB64" :: rest)] =
    entryOf (imgOut "FIRSTB64") :: (rest.map entryOf ++ []) from rfl]
  dsimp only
  rfl

/-- C8 counterexample: a completed job with TWO artifacts — the run's
response carries only the first artifact's bytes; the second
(`"SECONDB64"`) is absent from the response, contradicting the claim that
all output artifacts are returned. -/
theorem c8_counterexample :
    collectImages (mkHist [("9", [imgOut "FIRSTB64", imgOut2])]) =
      .ok [entryOf (imgOut "FIRSTB64"), entryOf imgOut2] ∧
    (opFaceswap (envC8 [imgOut2]) evHttp).1 =
      .ok (respOk [("result_b64", .str "FIRSTB64")]) :=
  ⟨rfl, rfl⟩

/-! ## C9 -/

/-- C9 (amended): the handler is total and never propagates an exception —
whenever the registered operations only ever return responses carrying a
boolean `ok` flag (they may also raise), every event yields such a response;
a non-object event or non-object `input` yields `"Invalid request body."`; a
missing (or falsy) `op` yields the Missing-op error; a string `op` naming no
registered operation yields the Unknown-op error.  (An UNHASHABLE `op` — a
JSON array or object — does not reach the Unknown-op reply: `OPS.get(op)`
raises `TypeError` and the catch-all returns the Unhandled-error response
instead; see the counterexample.) -/
theorem c9_handler_total (impl : OpKey → JVal → Except String JVal) (event : JVal) :
    ((∀ k p v, impl k p = .ok v → hasOkBool v = true) →
      hasOkBool (handler impl event) = true) ∧
    ((∀ fs, bodyVal event ≠ .obj fs) →
      handler impl event = respErr "Invalid request body.") ∧
    (∀ bodyFs, bodyVal event = .obj bodyFs →
      jTruthy ((jLookup "op" bodyFs).getD .null) = false →
      handler impl event = respErr msgMissingOp) ∧
    (∀ bodyFs s, bodyVal event = .obj bodyFs →
      (jLookup "op" bodyFs).getD .null = .str s →
      s ≠ "" → opsLookup s = none →
      handler impl event = respErr (msgUnknownOp s)) := by
  refine ⟨?_, ?_, ?_, ?_⟩
  · intro hImpl
    rw [handler]
    cases hb : bodyVal event with
    | obj bodyFs =>
      dsimp only
      by_cases hop : jTruthy ((jLookup "op" bodyFs).getD .null) = false
      · rw [if_pos hop]; rfl
      · rw [if_neg hop]
        cases hops : opsGet ((jLookup "op" bodyFs).getD .null) with
        | error e => rfl
        | ok o =>
          cases o with
          | none => rfl
          | some key =>
            dsimp only
            cases hi : impl key (.obj (bodyFs.filter (fun kv => kv.1 ≠ "op"))) with
            | error e => rfl
            | ok v => exact hImpl key _ v hi
    | null => rfl
    | bool b => rfl
    | num n => rfl
    | str s => rfl
    | arr xs => rfl
  · intro h
    rw [handler]
    cases hb : bodyVal event with
    | obj bodyFs => exact absurd hb (h bodyFs)
    | null => rfl
    | bool b => rfl
    | num n => rfl
    | str s => rfl
    | arr xs => rfl
  · intro bodyFs hb hop
    rw [handler, hb]
    dsimp only
    rw [if_pos hop]
  · intro bodyFs s hb hops hs hlk
    rw [handler, hb]
    dsimp only
    rw [if_neg (by simp [hops, jTruthy, hs])]
    rw [hops]
    rw [show opsGet (.str s) = .ok (opsLookup s) from rfl, hlk]
    rfl

/-- A stand-in for the registered operations that always answers with an
`ok`-flagged response. -/
def implOk : OpKey → JVal → Except String JVal :=
  fun _ _ => .ok (.obj [("ok", .bool true), ("pong", .bool true)])

/-- C9 witness: all four branches of the theorem at concrete events. -/
theorem c9_witness :
    hasOkBool (handler implOk (.obj [("input", .obj [("op", .str "ping")])])) = true ∧
    handler implOk (.str "garbage") = respErr "Invalid request body." ∧
    handler implOk (.obj [("input", .obj [])]) = respErr msgMissingOp ∧
    handler implOk (.obj [("input", .obj [("op", .str "resize")])]) =
      respErr (msgUnknownOp "resize") :=
  ⟨(c9_handler_total implOk (.obj [("input", .obj [("op", .str "ping")])])).1
     (fun k p v hv => by injection hv with h; rw [← h]; rfl),
   (c9_handler_total implOk (.str "garbage")).2.1
     (fun fs h => JVal.noConfusion (show JVal.null = JVal.obj fs from h)),
   (c9_handler_total implOk (.obj [("input", .obj [])])).2.2.1 [] rfl rfl,
   (c9_handler_total implOk (.obj [("input", .obj [("op", .str "resize")])])).2.2.2
     [("op", .str "resize")] "resize" rfl rfl (by simp) rfl⟩

/-- C9 counterexample: an `op` that is a JSON array names no registered
operation, yet the handler does not return the Unknown-op error — `OPS.get`
raises `TypeError: unhashable type: 'list'` and the catch-all produces the
Unhandled-error response (still `ok: false`, so totality survives). -/
theorem c9_counterexample :
    handler implOk (.obj [("input", .obj [("op", .arr [.str "faceswap"])])]) =
      respErrT ("Unhandled error: unhashable type: " ++ sq ++ "list" ++ sq) ∧
    hasOkBool (handler implOk (.obj [("input", .obj [("op", .arr [.str "faceswap"])])])) =
      true :=
  ⟨rfl, rfl⟩

/-! ## C10 -/

/-- C10: `_download_image_to` classifies a string input purely by prefix and
length: a string is routed to base64 decoding (never fetched — the result
does not depend on the fetch collaborator) exactly when it starts with
`"data:"` or is longer than 1000 characters, and only strings of length at
most 1000 without the `"data:"` prefix are fetched over HTTP; in particular
an http(s) URL longer than 1000 characters is handed to the base64 decoder
instead of being fetched. -/
theorem c10_download_route (d : String → Except String Unit)
    (f f2 : JVal → Except String Unit) (path : String) (s : String) :
    ((pyStartsWith s "data:" = false ∧ s.length ≤ 1000) →
      downloadImageTo d f path (.str s) =
        (match f (.str s) with
         | .error e => .error e
         | .ok _ => .ok (pyBasename path))) ∧
    ((pyStartsWith s "data:" = true ∨ 1000 < s.length) →
      downloadImageTo d f path (.str s) = downloadImageTo d f2 path (.str s)) ∧
    ((pyStartsWith s "data:" = false ∧ 1000 < s.length) →
      downloadImageTo d f path (.str s) =
        (match d s with
         | .error e => .error e
         | .ok _ => .ok (pyBasename path))) := by
  refine ⟨?_, ?_, ?_⟩
  · rintro ⟨h1, h2⟩
    rw [downloadImageTo, if_neg]
    simp [h1, h2, Nat.not_lt.mpr h2]
  · intro h
    have hc : (pyStartsWith s "data:" || decide (s.length > 1000)) = true := by
      rcases h with h | h
      · simp [h]
      · simp [h]
    rw [downloadImageTo, downloadImageTo, if_pos hc, if_pos hc]
  · rintro ⟨h1, h2⟩
    rw [downloadImageTo, if_pos (by simp [h2])]
    rw [if_neg (by simp [h1])]

/-- A 1001-character https URL. -/
def longUrl : String := "https://example.com/" ++ String.mk (List.replicate 981 'a')

set_option maxRecDepth 40000 in
/-- C10 witness: a short http URL is fetched; the 1001-character `longUrl` is
routed identically whatever the fetch collaborator does (it is never
fetched) and goes down the base64-decode path. -/
theorem c10_witness :
    downloadImageTo (fun _ => .ok ()) (fun _ => .ok ())
        "/workspace/inputs/source_a.png" (.str "http://e.com/img.png") =
      .ok "source_a.png" ∧
    downloadImageTo (fun _ => .ok ()) (fun _ => .ok ())
        "/workspace/inputs/source_a.png" (.str longUrl) =
      downloadImageTo (fun _ => .ok ()) (fun _ => .error "ConnectionError")
        "/workspace/inputs/source_a.png" (.str longUrl) ∧
    downloadImageTo (fun _ => .ok ()) (fun _ => .error "ConnectionError")
        "/workspace/inputs/source_a.png" (.str longUrl) =
      .ok "source_a.png" :=
  ⟨((c10_download_route (fun _ => .ok ()) (fun _ => .ok ()) (fun _ => .ok ())
      "/workspace/inputs/source_a.png" "http://e.com/img.png").1
      ⟨rfl, by decide⟩).trans rfl,
   (c10_download_route (fun _ => .ok ()) (fun _ => .ok ())
      (fun _ => .error "ConnectionError")
      "/workspace/inputs/source_a.png" longUrl).2.1
      (Or.inr (by decide)),
   ((c10_download_route (fun _ => .ok ()) (fun _ => .error "ConnectionError")
      (fun _ => .error "ConnectionError")
      "/workspace/inputs/source_a.png" longUrl).2.2
      ⟨by decide, by decide⟩).trans rfl⟩

end Comfy
